import Mathlib

/-
  Verification development for the rustcraft shared simulation core:
  the chunked voxel store (src/shared/src/world/data.rs and
  src/client/src/world/data.rs) and the per-tick player movement simulator
  (src/shared/src/players/movement.rs).

  Modelling conventions.
  * Rust f32 values are modelled by `F := Option ℚ`: `some q` is a finite
    float of exact value q and `none` models NaN.  Arithmetic is exact
    rational arithmetic (rounding is not modelled); NaN propagation through
    `+ - * /`, the "comparisons with NaN are false" rule, the Rust
    `f32::min` / `f32::max` behaviour of ignoring a NaN argument, the
    `0.0 / 0.0 = NaN` rule, and the Rust saturating `as i32` casts
    (NaN ↦ 0) follow IEEE-754 / Rust semantics.  Square roots (used only by
    vector normalization) are exact on perfect rational squares and are
    mapped to `none` otherwise; no theorem below depends on the value of an
    inexact square root.
  * Rust HashMap is modelled as a total function into Option; Vec::push is
    list append.
  * i32 arithmetic on block coordinates stays within range in everything
    proved here, so plain ℤ is used, with Int.tmod embedding the Rust `%`
    (truncated remainder) and saturation kept in the float-to-int casts.
-/

/-- Exact rational addition written with Rat.divInt so that it reduces in
the kernel (the Mathlib operations on ℚ do not reduce under kernel evaluation);
Rat.divInt normalizes, so values stay canonical and structural equality is
value equality.  Proven equal to the Mathlib operation below (qAdd_eq). -/
def qAdd (a b : ℚ) : ℚ := Rat.divInt (a.num * b.den + b.num * a.den) (a.den * b.den)

/-- Kernel-reducible exact rational multiplication; equals `*` (qMul_eq). -/
def qMul (a b : ℚ) : ℚ := Rat.divInt (a.num * b.num) (a.den * b.den)

/-- Kernel-reducible exact rational negation; equals `-` (qNeg_eq). -/
def qNeg (a : ℚ) : ℚ := Rat.divInt (-a.num) a.den

/-- Kernel-reducible exact rational subtraction; equals `-` (qSub_eq). -/
def qSub (a b : ℚ) : ℚ := qAdd a (qNeg b)

/-- Kernel-reducible exact rational division; equals `/` for nonzero
divisors (qDiv_eq). -/
def qDiv (a b : ℚ) : ℚ := Rat.divInt (a.num * b.den) (a.den * b.num)

/-- Kernel-reducible floor of an exact rational; equals Int.floor
(qFloor_eq). -/
def qFloor (q : ℚ) : ℤ := q.num / (q.den : ℤ)

/-- f32 modelled as an exact rational or NaN (`none`). -/
abbrev F := Option ℚ

def fAdd : F → F → F
  | some a, some b => some (qAdd a b)
  | _, _ => none

def fSub : F → F → F
  | some a, some b => some (qSub a b)
  | _, _ => none

def fMul : F → F → F
  | some a, some b => some (qMul a b)
  | _, _ => none

/-- Float division.  0/0 (the only division by zero reachable in the
embedded code, inside vector normalization) is NaN; NaN operands give NaN. -/
def fDiv : F → F → F
  | some a, some b => if b = 0 then none else some (qDiv a b)
  | _, _ => none

def fNeg : F → F
  | some a => some (qNeg a)
  | none => none

/-- f32 `<`: any comparison with NaN is false. -/
def fLt : F → F → Bool
  | some a, some b => decide (a < b)
  | _, _ => false

/-- f32 `==`: NaN is not equal to anything, including itself. -/
def fEq : F → F → Bool
  | some a, some b => decide (a = b)
  | _, _ => false

/-- Rust f32::max: if one argument is NaN the other is returned. -/
def fMax : F → F → F
  | some a, some b => some (max a b)
  | some a, none => some a
  | none, some b => some b
  | none, none => none

/-- Rust f32::min: if one argument is NaN the other is returned. -/
def fMin : F → F → F
  | some a, some b => some (min a b)
  | some a, none => some a
  | none, some b => some b
  | none, none => none

/-- Exact square root of a nonnegative rational when it is a perfect
square; `none` (outside the exact model) otherwise. -/
def ratSqrt (q : ℚ) : F :=
  let n := q.num.toNat.sqrt
  let d := q.den.sqrt
  if (n : ℤ) * (n : ℤ) = q.num ∧ d * d = q.den then some (Rat.divInt (n : ℤ) (d : ℤ))
  else none

def fSqrt : F → F
  | some q => if 0 ≤ q then ratSqrt q else none
  | none => none

/-- floor() followed by the Rust saturating `as i32` cast; NaN casts to 0. -/
def fFloorI32 : F → ℤ
  | none => 0
  | some q => max (-2147483648) (min 2147483647 (qFloor q))

/-- Truncation toward zero of an exact rational. -/
def intTrunc (q : ℚ) : ℤ := if 0 ≤ q then qFloor q else -(qFloor (qNeg q))

/-- The Rust saturating `as i32` cast (truncates toward zero); NaN casts to 0. -/
def fTruncI32 : F → ℤ
  | none => 0
  | some q => max (-2147483648) (min 2147483647 (intTrunc q))

/-- glam/bevy Vec3 over modelled f32 components. -/
structure Vec3F where
  x : F
  y : F
  z : F
deriving DecidableEq

def Vec3F.zero : Vec3F := ⟨some 0, some 0, some 0⟩

def vAdd (a b : Vec3F) : Vec3F := ⟨fAdd a.x b.x, fAdd a.y b.y, fAdd a.z b.z⟩

def vSub (a b : Vec3F) : Vec3F := ⟨fSub a.x b.x, fSub a.y b.y, fSub a.z b.z⟩

/-- Vec3 * scalar, componentwise. -/
def vScale (a : Vec3F) (s : F) : Vec3F := ⟨fMul a.x s, fMul a.y s, fMul a.z s⟩

/-- glam Vec3::max, componentwise f32::max. -/
def vMax (a b : Vec3F) : Vec3F := ⟨fMax a.x b.x, fMax a.y b.y, fMax a.z b.z⟩

/-- glam Vec3::min, componentwise f32::min. -/
def vMin (a b : Vec3F) : Vec3F := ⟨fMin a.x b.x, fMin a.y b.y, fMin a.z b.z⟩

/-- glam Vec3 PartialEq: componentwise f32 equality. -/
def vecEq (a b : Vec3F) : Bool := fEq a.x b.x && fEq a.y b.y && fEq a.z b.z

def withX (a : Vec3F) (v : F) : Vec3F := ⟨v, a.y, a.z⟩

def withY (a : Vec3F) (v : F) : Vec3F := ⟨a.x, v, a.z⟩

def withZ (a : Vec3F) (v : F) : Vec3F := ⟨a.x, a.y, v⟩

def vLength2 (a : Vec3F) : F := fAdd (fAdd (fMul a.x a.x) (fMul a.y a.y)) (fMul a.z a.z)

/-- glam Vec3::normalize: divide by the length; the zero vector (length 0)
normalizes to NaN components, as in glam. -/
def vNormalize (a : Vec3F) : Vec3F :=
  let len := fSqrt (vLength2 a)
  ⟨fDiv a.x len, fDiv a.y len, fDiv a.z len⟩

/-- All three components are finite (not NaN). -/
def vFinite (a : Vec3F) : Bool := a.x.isSome && a.y.isSome && a.z.isSome

/-- bevy IVec3 (i32 components; coordinates stay in range here). -/
structure IVec3 where
  x : ℤ
  y : ℤ
  z : ℤ
deriving DecidableEq

/-- bevy Aabb3d: an axis-aligned box given by min and max corners. -/
structure Aabb3d where
  min : Vec3F
  max : Vec3F
deriving DecidableEq

/-- The hitbox match arms of check_collision_box (src/shared/src/world/data.rs). -/
inductive BlockHitbox where
  | FullBlock
  | None
  | Aabb (box : Aabb3d)
deriving DecidableEq

/-- Modelled from the spec: the block registry (BlockId and its get_hitbox
impl) is not under src/.  Per the spec a block hitbox is one of full-cube,
none, or a sub-box, so BlockId is modelled as exactly that three-way choice. -/
inductive BlockId where
  | fullCube
  | passable
  | subBox (box : Aabb3d)
deriving DecidableEq

def BlockId.get_hitbox : BlockId → BlockHitbox
  | .fullCube => .FullBlock
  | .passable => .None
  | .subBox b => .Aabb b

/-- BlockData as seen by the store and the collision code: only the id is
read by the embedded functions. -/
structure BlockData where
  id : BlockId
deriving DecidableEq

/-- src/shared/src/constants.rs line 5. -/
def CHUNK_SIZE : ℤ := 16

/-- src/shared/src/constants.rs lines 7-11 (0.5 is exact in f32). -/
def HALF_BLOCK : Vec3F := ⟨some (mkRat 1 2), some (mkRat 1 2), some (mkRat 1 2)⟩

/-- Modelled from the spec: SPEED lives in src/shared/src/players/constants.rs,
not under src/.  The spec fixes only its role (base speed); a representative
positive value is chosen and no claim depends on it. -/
def SPEED : F := some 4

/-- Modelled from the spec: FLY_SPEED_MULTIPLIER is not under src/;
representative value, no claim depends on it. -/
def FLY_SPEED_MULTIPLIER : F := some 2

/-- Modelled from the spec: GRAVITY (constant downward acceleration) is not
under src/; representative negative value, no claim depends on it. -/
def GRAVITY : F := some (Rat.divInt (-981) 100)

/-- Modelled from the spec: JUMP_VELOCITY (fixed jump impulse) is not under
src/; representative positive value, no claim depends on it. -/
def JUMP_VELOCITY : F := some 10

/-- Modelled from the spec: MAX_VERTICAL_SPEED is not under src/;
representative positive value, no claim depends on it. -/
def MAX_VERTICAL_SPEED : F := some 50

/-- Modelled from the spec: block_to_chunk_coord (src/shared/src/world, not
under src/) is the global coordinate divided by CHUNK_SIZE with floor
division (not truncation). -/
def block_to_chunk_coord (v : ℤ) : ℤ := Int.fdiv v CHUNK_SIZE

/-- The local-offset normalization `((v % S) + S) % S` exactly as inlined in
get_block_by_coordinates / get_block_mut_by_coordinates / set_block
(src/shared/src/world/data.rs); Rust `%` is the truncated remainder Int.tmod. -/
def norm_local_offset (v : ℤ) : ℤ := (Int.tmod v CHUNK_SIZE + CHUNK_SIZE).tmod CHUNK_SIZE

/-- Modelled from the spec: global_block_to_chunk_pos (not under src/) maps
each component through the floor-division chunk coordinate. -/
def global_block_to_chunk_pos (p : IVec3) : IVec3 :=
  ⟨block_to_chunk_coord p.x, block_to_chunk_coord p.y, block_to_chunk_coord p.z⟩

/-- Modelled from the spec: global_block_to_local_offset (not under src/)
normalizes each component into [0, CHUNK_SIZE) via ((v % S) + S) % S. -/
def global_block_to_local_offset (p : IVec3) : IVec3 :=
  ⟨norm_local_offset p.x, norm_local_offset p.y, norm_local_offset p.z⟩

/-- The Rust inclusive range a..=b as a list (empty when b < a). -/
def intRange (a b : ℤ) : List ℤ := (List.range (b + 1 - a).toNat).map fun n => a + (n : ℤ)

/-- The WorldMap trait of src/shared/src/world/data.rs (required methods).
&mut self methods return the updated store; get_block_mut_by_coordinates is
modelled as a lookup (the mutable borrow itself has no functional content). -/
class WorldMap (W : Type) where
  get_block_mut_by_coordinates : W → IVec3 → Option BlockData
  get_block_by_coordinates : W → IVec3 → Option BlockData
  remove_block_by_coordinates : W → IVec3 → Option BlockData × W
  set_block : W → IVec3 → BlockData → W
  mark_block_for_update : W → IVec3 → W

/-- The Aabb arm of check_collision_box (src/shared/src/world/data.rs lines
191-198): min := componentwise max of the minima, max := componentwise min
of the maxima, and collision is reported when `min == max.min(min)`. -/
def aabbOverlapTest (hitbox block_hitbox : Aabb3d) : Bool :=
  let minV := vMax hitbox.min block_hitbox.min
  let maxV := vMin hitbox.max block_hitbox.max
  vecEq minV (vMin maxV minV)

/-- Default trait method check_collision_box (src/shared/src/world/data.rs
lines 181-205): scan every integer block coordinate in the floored ranges of
the box and return true on the first solid hit (List.any models the early
return; `continue` on BlockHitbox::None is `false` for that cell). -/
def check_collision_box {W : Type} [WorldMap W] (w : W) (hitbox : Aabb3d) : Bool :=
  (intRange (fFloorI32 hitbox.min.x) (fFloorI32 hitbox.max.x)).any fun x =>
    (intRange (fFloorI32 hitbox.min.y) (fFloorI32 hitbox.max.y)).any fun y =>
      (intRange (fFloorI32 hitbox.min.z) (fFloorI32 hitbox.max.z)).any fun z =>
        match WorldMap.get_block_by_coordinates w (⟨x, y, z⟩ : IVec3) with
        | Option.none => false
        | Option.some block =>
          match block.id.get_hitbox with
          | BlockHitbox.FullBlock => true
          | BlockHitbox.None => false
          | BlockHitbox.Aabb b => aabbOverlapTest hitbox b

/-- Default trait method get_surrounding_chunks (src/shared/src/world/data.rs
lines 207-223).  It truncates the position to i32, takes the chunk
coordinate, and pushes every coordinate of the inclusive cubic radius; note
that it never reads the store, so the embedding takes no store argument. -/
def get_surrounding_chunks (position : Vec3F) (radius : ℤ) : List IVec3 :=
  let cx := block_to_chunk_coord (fTruncI32 position.x)
  let cy := block_to_chunk_coord (fTruncI32 position.y)
  let cz := block_to_chunk_coord (fTruncI32 position.z)
  (intRange (-radius) radius).flatMap fun i =>
    (intRange (-radius) radius).flatMap fun j =>
      (intRange (-radius) radius).map fun k =>
        (⟨cx + i, cy + j, cz + k⟩ : IVec3)

/-- ServerChunk (src/shared/src/world/data.rs lines 28-34); the HashMap is a
total function into Option. -/
structure ServerChunk where
  map : IVec3 → Option BlockData
  ts : ℕ
  sent_to_clients : List ℕ

/-- Rust Default for ServerChunk: empty map, zero timestamp, no clients. -/
instance : Inhabited ServerChunk := ⟨⟨fun _ => Option.none, 0, []⟩⟩

/-- ServerChunkWorldMap (src/shared/src/world/data.rs lines 49-53). -/
structure ServerChunkWorldMap where
  map : IVec3 → Option ServerChunk
  chunks_to_update : List IVec3

/-- impl WorldMap for ServerChunkWorldMap, get_block_by_coordinates
(src/shared/src/world/data.rs lines 251-271); the warn! log is dropped. -/
def ServerChunkWorldMap.get_block_by_coordinates (w : ServerChunkWorldMap)
    (position : IVec3) : Option BlockData :=
  let cx := block_to_chunk_coord position.x
  let cy := block_to_chunk_coord position.y
  let cz := block_to_chunk_coord position.z
  match w.map ⟨cx, cy, cz⟩ with
  | Option.some chunk =>
    chunk.map ⟨norm_local_offset position.x, norm_local_offset position.y,
      norm_local_offset position.z⟩
  | Option.none => Option.none

/-- get_block_mut_by_coordinates (lines 229-249): identical lookup; the
mutable borrow has no functional content. -/
def ServerChunkWorldMap.get_block_mut_by_coordinates (w : ServerChunkWorldMap)
    (position : IVec3) : Option BlockData :=
  let cx := block_to_chunk_coord position.x
  let cy := block_to_chunk_coord position.y
  let cz := block_to_chunk_coord position.z
  match w.map ⟨cx, cy, cz⟩ with
  | Option.some chunk =>
    chunk.map ⟨norm_local_offset position.x, norm_local_offset position.y,
      norm_local_offset position.z⟩
  | Option.none => Option.none

/-- set_block (lines 290-304): entry().or_default() creates the chunk when
absent, the block is inserted at the normalized offset, and the chunk
coordinate is pushed onto chunks_to_update. -/
def ServerChunkWorldMap.set_block (w : ServerChunkWorldMap) (position : IVec3)
    (block : BlockData) : ServerChunkWorldMap :=
  let c : IVec3 := ⟨block_to_chunk_coord position.x, block_to_chunk_coord position.y,
    block_to_chunk_coord position.z⟩
  let chunk := (w.map c).getD default
  let key : IVec3 := ⟨norm_local_offset position.x, norm_local_offset position.y,
    norm_local_offset position.z⟩
  { map := fun k =>
      if k = c then
        Option.some { chunk with map := fun k2 => if k2 = key then Option.some block else chunk.map k2 }
      else w.map k,
    chunks_to_update := w.chunks_to_update ++ [c] }

/-- remove_block_by_coordinates (lines 273-288): the two `?` early returns
yield None with the store untouched; otherwise the entry at the normalized
offset is removed, the chunk is marked for update, and the prior block is
returned.  The info! log is dropped. -/
def ServerChunkWorldMap.remove_block_by_coordinates (w : ServerChunkWorldMap)
    (global_block_pos : IVec3) : Option BlockData × ServerChunkWorldMap :=
  match w.get_block_by_coordinates global_block_pos with
  | Option.none => (Option.none, w)
  | Option.some kind =>
    let chunk_pos := global_block_to_chunk_pos global_block_pos
    match w.map chunk_pos with
    | Option.none => (Option.none, w)
    | Option.some chunk =>
      let key := global_block_to_local_offset global_block_pos
      (Option.some kind,
        { map := fun k =>
            if k = chunk_pos then
              Option.some { chunk with map := fun k2 => if k2 = key then Option.none else chunk.map k2 }
            else w.map k,
          chunks_to_update := w.chunks_to_update ++ [chunk_pos] })

/-- mark_block_for_update (lines 306-314). -/
def ServerChunkWorldMap.mark_block_for_update (w : ServerChunkWorldMap)
    (position : IVec3) : ServerChunkWorldMap :=
  let c : IVec3 := ⟨block_to_chunk_coord position.x, block_to_chunk_coord position.y,
    block_to_chunk_coord position.z⟩
  { w with chunks_to_update := w.chunks_to_update ++ [c] }

instance : WorldMap ServerChunkWorldMap where
  get_block_mut_by_coordinates := ServerChunkWorldMap.get_block_mut_by_coordinates
  get_block_by_coordinates := ServerChunkWorldMap.get_block_by_coordinates
  remove_block_by_coordinates := ServerChunkWorldMap.remove_block_by_coordinates
  set_block := ServerChunkWorldMap.set_block
  mark_block_for_update := ServerChunkWorldMap.mark_block_for_update

/-- ClientChunk (src/client/src/world/data.rs lines 22-27); the rendering
entity handle and the mesh timestamp are not read by any embedded operation
and are omitted. -/
structure ClientChunk where
  map : IVec3 → Option BlockData

instance : Inhabited ClientChunk := ⟨⟨fun _ => Option.none⟩⟩

/-- ClientWorldMap (src/client/src/world/data.rs lines 39-45). -/
structure ClientWorldMap where
  name : String
  map : IVec3 → Option ClientChunk
  total_blocks_count : ℕ
  total_chunks_count : ℕ

/-- impl WorldMap for ClientWorldMap, get_block_by_coordinates (lines 48-54). -/
def ClientWorldMap.get_block_by_coordinates (w : ClientWorldMap)
    (position : IVec3) : Option BlockData :=
  match w.map (global_block_to_chunk_pos position) with
  | Option.some chunk => chunk.map (global_block_to_local_offset position)
  | Option.none => Option.none

/-- Client get_block_mut_by_coordinates (lines 56-62): identical lookup. -/
def ClientWorldMap.get_block_mut_by_coordinates (w : ClientWorldMap)
    (position : IVec3) : Option BlockData :=
  match w.map (global_block_to_chunk_pos position) with
  | Option.some chunk => chunk.map (global_block_to_local_offset position)
  | Option.none => Option.none

/-- Client set_block (lines 79-85). -/
def ClientWorldMap.set_block (w : ClientWorldMap) (position : IVec3)
    (block : BlockData) : ClientWorldMap :=
  let chunk_pos := global_block_to_chunk_pos position
  let chunk := (w.map chunk_pos).getD default
  let key := global_block_to_local_offset position
  { w with map := fun k =>
      if k = chunk_pos then
        Option.some { chunk with map := fun k2 => if k2 = key then Option.some block else chunk.map k2 }
      else w.map k }

/-- Client remove_block_by_coordinates (lines 64-77). -/
def ClientWorldMap.remove_block_by_coordinates (w : ClientWorldMap)
    (global_block_pos : IVec3) : Option BlockData × ClientWorldMap :=
  match w.get_block_by_coordinates global_block_pos with
  | Option.none => (Option.none, w)
  | Option.some kind =>
    let chunk_pos := global_block_to_chunk_pos global_block_pos
    match w.map chunk_pos with
    | Option.none => (Option.none, w)
    | Option.some chunk =>
      let key := global_block_to_local_offset global_block_pos
      (Option.some kind,
        { w with map := fun k =>
            if k = chunk_pos then
              Option.some { chunk with map := fun k2 => if k2 = key then Option.none else chunk.map k2 }
            else w.map k })

/-- Client mark_block_for_update (lines 87-89): a no-op. -/
def ClientWorldMap.mark_block_for_update (w : ClientWorldMap) (_position : IVec3) :
    ClientWorldMap := w

instance : WorldMap ClientWorldMap where
  get_block_mut_by_coordinates := ClientWorldMap.get_block_mut_by_coordinates
  get_block_by_coordinates := ClientWorldMap.get_block_by_coordinates
  remove_block_by_coordinates := ClientWorldMap.remove_block_by_coordinates
  set_block := ClientWorldMap.set_block
  mark_block_for_update := ClientWorldMap.mark_block_for_update

/-- Modelled from the spec: the bevy Transform camera is read by the
simulator only through its derived forward() and right() basis vectors,
so the camera transform is embedded as exactly those two vectors. -/
structure Transform where
  forward : Vec3F
  right : Vec3F
deriving DecidableEq

/-- The NetworkAction variants read by the movement simulator
(src/shared/src/players/movement.rs); the full enum lives outside src/. -/
inductive NetworkAction where
  | MoveBackward
  | MoveForward
  | MoveLeft
  | MoveRight
  | JumpOrFlyUp
  | SneakOrFlyDown
  | ToggleFlyMode
deriving DecidableEq

/-- PlayerFrameInput fields read by the simulator (the struct itself lives
outside src/): frame timestamp, elapsed delta in ms, the pressed-action set
(a HashSet, modelled as a list queried by contains), and the sampled camera. -/
structure PlayerFrameInput where
  time_ms : ℕ
  delta_ms : ℕ
  inputs : List NetworkAction
  camera : Transform
deriving DecidableEq

/-- IsPressed for PlayerFrameInput (src/shared/src/players/movement.rs
lines 156-164): membership in the input set. -/
def PlayerFrameInput.is_pressed (self : PlayerFrameInput) (action : NetworkAction) : Bool :=
  self.inputs.contains action

/-- The Player fields read and written by the movement simulator (the struct
lives outside src/); id, inventory and the last-input timestamp are opaque
to movement and omitted. -/
structure Player where
  position : Vec3F
  velocity : Vec3F
  camera_transform : Transform
  is_flying : Bool
  on_ground : Bool
deriving DecidableEq

/-- Modelled from the spec: check_player_collision lives in
src/shared/src/players/collision.rs, not under src/.  Per the spec it
queries intersects_solid (check_collision_box) against the player's hitbox
translated to the candidate position; the hitbox is modelled as a
HALF_BLOCK-radius box around the candidate position.  The player argument
is kept for signature fidelity and is not read. -/
def check_player_collision {W : Type} [WorldMap W] (position : Vec3F) (_player : Player)
    (world_map : W) : Bool :=
  check_collision_box world_map ⟨vSub position HALF_BLOCK, vAdd position HALF_BLOCK⟩

/-- get_desired_direction (src/shared/src/players/movement.rs lines 50-95):
project the camera forward/right onto the horizontal plane and normalize,
accumulate the pressed directional actions, renormalize the sum only if it
is nonzero, then add the vertical unit contributions. -/
def get_desired_direction (player : Player) (action : PlayerFrameInput) : Vec3F :=
  let forward := vNormalize (withY player.camera_transform.forward (some 0))
  let right := vNormalize (withY player.camera_transform.right (some 0))
  let d0 := Vec3F.zero
  let d1 := if action.is_pressed NetworkAction.MoveBackward then vSub d0 forward else d0
  let d2 := if action.is_pressed NetworkAction.MoveForward then vAdd d1 forward else d1
  let d3 := if action.is_pressed NetworkAction.MoveLeft then vSub d2 right else d2
  let d4 := if action.is_pressed NetworkAction.MoveRight then vAdd d3 right else d3
  let d5 := if !(vecEq d4 Vec3F.zero) then vNormalize d4 else d4
  let d6 := if action.is_pressed NetworkAction.JumpOrFlyUp then vAdd d5 ⟨some 0, some 1, some 0⟩ else d5
  let d7 := if action.is_pressed NetworkAction.SneakOrFlyDown then vSub d6 ⟨some 0, some 1, some 0⟩ else d6
  d7

/-- fly (src/shared/src/players/movement.rs lines 97-101): free movement
along the desired direction, vertical velocity reset, airborne; no world
access at all. -/
def fly (player : Player) (direction : Vec3F) (delta : F) : Player :=
  { player with
    position := vAdd player.position
      (vScale direction (fMul (fMul SPEED FLY_SPEED_MULTIPLIER) delta)),
    velocity := { player.velocity with y := some 0 },
    on_ground := false }

/-- fly_not (src/shared/src/players/movement.rs lines 103-154): candidate
positions per axis from the original position, vertical velocity clamped
before integrating, per-axis collision gating in x, y, z order, then jump
(only if grounded) or gravity (only if airborne). -/
def fly_not {W : Type} [WorldMap W] (player : Player) (is_jumping : Bool)
    (direction : Vec3F) (delta : F) (world_map : W) : Player :=
  let displacement := fMul SPEED delta
  let new_x := fAdd player.position.x (fMul direction.x displacement)
  let new_z := fAdd player.position.z (fMul direction.z displacement)
  let vy := fMin (fMax player.velocity.y (fNeg MAX_VERTICAL_SPEED)) MAX_VERTICAL_SPEED
  let p0 := { player with velocity := { player.velocity with y := vy } }
  let new_y := fAdd p0.position.y (fMul p0.velocity.y delta)
  let new_vec_x := withX p0.position new_x
  let new_vec_y := withY p0.position new_y
  let new_vec_z := withZ p0.position new_z
  let p1 := if !(check_player_collision new_vec_x p0 world_map) then
      { p0 with position := withX p0.position new_x } else p0
  let p2 := if check_player_collision new_vec_y p1 world_map then
      { p1 with on_ground := true, velocity := { p1.velocity with y := some 0 } }
    else
      { p1 with position := withY p1.position new_y, on_ground := false }
  let p3 := if !(check_player_collision new_vec_z p2 world_map) then
      { p2 with position := withZ p2.position new_z } else p2
  if p3.on_ground && is_jumping then
    { p3 with velocity := { p3.velocity with y := JUMP_VELOCITY }, on_ground := false }
  else if !p3.on_ground then
    { p3 with velocity := { p3.velocity with y := fAdd p3.velocity.y (fMul GRAVITY delta) } }
  else p3

/-- simulate_player_movement lines 27-29: flip is_flying when the toggle
action is present this frame. -/
def toggle_fly (player : Player) (action : PlayerFrameInput) : Player :=
  if action.is_pressed NetworkAction.ToggleFlyMode then
    { player with is_flying := !player.is_flying }
  else player

/-- simulate_player_movement line 31: record the sampled camera
unconditionally. -/
def record_camera (player : Player) (action : PlayerFrameInput) : Player :=
  { player with camera_transform := action.camera }

/-- The body of simulate_player_movement after the chunk-count gate
(src/shared/src/players/movement.rs lines 25-40): delta in seconds, fly
toggle, camera record, desired direction, then the flying or walking branch. -/
def move_phase {W : Type} [WorldMap W] (player : Player) (world_map : W)
    (action : PlayerFrameInput) : Player :=
  let delta := fDiv (some ((action.delta_ms : ℚ))) (some 1000)
  let p2 := record_camera (toggle_fly player action) action
  let direction := get_desired_direction p2 action
  let is_jumping := action.is_pressed NetworkAction.JumpOrFlyUp
  if p2.is_flying then fly p2 direction delta
  else fly_not p2 is_jumping direction delta world_map

/-- simulate_player_movement line 43. -/
def FALL_LIMIT : F := some (-50)

/-- simulate_player_movement lines 42-47: if the player ended below the fall
limit, teleport to the fixed respawn point and zero vertical velocity. -/
def apply_fall_limit (player : Player) : Player :=
  if fLt player.position.y FALL_LIMIT then
    { player with position := ⟨some 0, some 100, some 0⟩
                  velocity := { player.velocity with y := some 0 } }
  else player

/-- simulate_player_movement (src/shared/src/players/movement.rs lines
13-48): the surrounding-chunks count gate, then the movement phase, then
the fall-out-of-world recovery. -/
def simulate_player_movement {W : Type} [WorldMap W] (player : Player) (world_map : W)
    (action : PlayerFrameInput) : Player :=
  if (get_surrounding_chunks player.position 1).length < 9 then player
  else apply_fall_limit (move_phase player world_map action)

/-- A camera looking along -Z (the identity orientation): forward (0,0,-1),
right (1,0,0). -/
def identityCam : Transform := ⟨⟨some 0, some 0, some (-1)⟩, ⟨some 1, some 0, some 0⟩⟩

/-- A camera pitched straight down: forward (0,-1,0), right (1,0,0). -/
def downCam : Transform := ⟨⟨some 0, some (-1), some 0⟩, ⟨some 1, some 0, some 0⟩⟩

/-- A camera looking along +X: forward (1,0,0), right (0,0,1). -/
def eastCam : Transform := ⟨⟨some 1, some 0, some 0⟩, ⟨some 0, some 0, some 1⟩⟩

/-- A server store with no chunks at all. -/
def emptyServerMap : ServerChunkWorldMap := ⟨fun _ => Option.none, []⟩

/-- An empty client store. -/
def emptyClientMap : ClientWorldMap := ⟨"", fun _ => Option.none, 0, 0⟩

/-- A grounded, non-flying player at (0, 20, 0) with zero velocity. -/
def basePlayer : Player :=
  ⟨⟨some 0, some 20, some 0⟩, ⟨some 0, some 0, some 0⟩, identityCam, false, false⟩

/-- C1 counterexample input: a zero-delta frame holding the fly toggle. -/
def inputC1 : PlayerFrameInput := ⟨0, 0, [NetworkAction.ToggleFlyMode], identityCam⟩

/-- C1 witness input: a zero-delta frame with no actions. -/
def inputC1w : PlayerFrameInput := ⟨0, 0, [], identityCam⟩

/-- C2 failing input: a normal 1-second frame with no actions but a new
camera orientation. -/
def inputC2 : PlayerFrameInput := ⟨0, 1000, [], eastCam⟩

/-- The sub-box hitbox [1,2]x[0,1]x[0,1], touching the C3 query box on the
face x = 1 with zero overlap volume. -/
def touchBox : Aabb3d := ⟨⟨some 1, some 0, some 0⟩, ⟨some 2, some 1, some 1⟩⟩

/-- C3 query box: the unit cube [0,1]^3. -/
def queryBoxC3 : Aabb3d := ⟨⟨some 0, some 0, some 0⟩, ⟨some 1, some 1, some 1⟩⟩

/-- A server store whose only block sits at (0,0,0) and has the touching
sub-box hitbox. -/
def worldC3 : ServerChunkWorldMap :=
  ⟨fun c => if c = (⟨0, 0, 0⟩ : IVec3) then
      Option.some ⟨fun k => if k = (⟨0, 0, 0⟩ : IVec3) then
          Option.some ⟨BlockId.subBox touchBox⟩ else Option.none, 0, []⟩
    else Option.none, []⟩

/-- C4 player: already flying, camera pitched straight down. -/
def playerC4 : Player :=
  ⟨⟨some 0, some 20, some 0⟩, ⟨some 0, some 0, some 0⟩, downCam, true, false⟩

/-- C4 failing input: a 1-second frame pressing MoveForward with the camera
pitched straight down. -/
def inputC4 : PlayerFrameInput := ⟨0, 1000, [NetworkAction.MoveForward], downCam⟩

/-- A server store with a single full-cube block at (0,-1,0) (chunk
(0,-1,0), local offset (0,15,0)). -/
def worldC7 : ServerChunkWorldMap :=
  ⟨fun c => if c = (⟨0, -1, 0⟩ : IVec3) then
      Option.some ⟨fun k => if k = (⟨0, 15, 0⟩ : IVec3) then
          Option.some ⟨BlockId.fullCube⟩ else Option.none, 0, []⟩
    else Option.none, []⟩

/-- C7 witness player: falling at (0,0.4,0) with vertical velocity -1, so
the vertical candidate position collides with the block below. -/
def playerC7 : Player :=
  ⟨⟨some 0, some (mkRat 2 5), some 0⟩, ⟨some 0, some (-1), some 0⟩, identityCam, false, false⟩

/-- C9 witness player: a player already far below the fall limit. -/
def playerC9 : Player :=
  ⟨⟨some 0, some (-100), some 0⟩, ⟨some 0, some 0, some 0⟩, identityCam, false, false⟩

/-- A flat no-action frame of one second. -/
def inputIdle : PlayerFrameInput := ⟨0, 1000, [], identityCam⟩

/-- C10 witness player: already flying. -/
def playerC10 : Player :=
  ⟨⟨some 0, some 20, some 0⟩, ⟨some 0, some 0, some 0⟩, identityCam, true, false⟩

/-- The non-degenerate-overlap notion of claim C3 (stated from the claim's
words, for the counterexample only): on every axis the intersection of the
two boxes has strictly positive extent. -/
def nondegenerateOverlap (a b : Aabb3d) : Prop :=
  fLt (fMax a.min.x b.min.x) (fMin a.max.x b.max.x) = true ∧
  fLt (fMax a.min.y b.min.y) (fMin a.max.y b.max.y) = true ∧
  fLt (fMax a.min.z b.min.z) (fMin a.max.z b.max.z) = true

instance (a b : Aabb3d) : Decidable (nondegenerateOverlap a b) := by
  unfold nondegenerateOverlap; infer_instance

theorem rat_num_mul_den (a : ℚ) : (a.num : ℚ) = a * a.den :=
  (div_eq_iff (by exact_mod_cast a.den_nz)).mp (Rat.num_div_den a)

theorem qAdd_eq (a b : ℚ) : qAdd a b = a + b := by
  have ha : (a.den : ℚ) ≠ 0 := by exact_mod_cast a.den_nz
  have hb : (b.den : ℚ) ≠ 0 := by exact_mod_cast b.den_nz
  unfold qAdd
  rw [Rat.divInt_eq_div]
  push_cast
  rw [div_eq_iff (mul_ne_zero ha hb), rat_num_mul_den a, rat_num_mul_den b]
  ring

theorem qMul_eq (a b : ℚ) : qMul a b = a * b := by
  have ha : (a.den : ℚ) ≠ 0 := by exact_mod_cast a.den_nz
  have hb : (b.den : ℚ) ≠ 0 := by exact_mod_cast b.den_nz
  unfold qMul
  rw [Rat.divInt_eq_div]
  push_cast
  rw [div_eq_iff (mul_ne_zero ha hb), rat_num_mul_den a, rat_num_mul_den b]
  ring

theorem qNeg_eq (a : ℚ) : qNeg a = -a := by
  have ha : (a.den : ℚ) ≠ 0 := by exact_mod_cast a.den_nz
  unfold qNeg
  rw [Rat.divInt_eq_div]
  push_cast
  rw [div_eq_iff ha, rat_num_mul_den a]
  ring

theorem qSub_eq (a b : ℚ) : qSub a b = a - b := by
  unfold qSub
  rw [qAdd_eq, qNeg_eq, sub_eq_add_neg]

theorem qDiv_eq (a b : ℚ) (h : b ≠ 0) : qDiv a b = a / b := by
  have ha : (a.den : ℚ) ≠ 0 := by exact_mod_cast a.den_nz
  have hb : (b.den : ℚ) ≠ 0 := by exact_mod_cast b.den_nz
  have hbn : (b.num : ℚ) ≠ 0 := by
    rw [rat_num_mul_den b]
    exact mul_ne_zero h hb
  unfold qDiv
  rw [Rat.divInt_eq_div]
  push_cast
  rw [div_eq_iff (mul_ne_zero ha hbn), div_mul_eq_mul_div, eq_div_iff h,
    rat_num_mul_den a, rat_num_mul_den b]
  ring

theorem qFloor_eq (q : ℚ) : qFloor q = ⌊q⌋ := by
  rw [Rat.floor_def]
  rfl
theorem tmod_sixteen_lower (a : ℤ) : -16 < a.tmod 16 := by
  cases a with
  | ofNat m =>
    exact lt_of_lt_of_le (by norm_num) (Int.tmod_nonneg (16 : ℤ) (Int.ofNat_nonneg m))
  | negSucc m =>
    rw [show Int.tmod (Int.negSucc m) 16 = -(((m + 1) % 16 : ℕ) : ℤ) from rfl]
    have h : (m + 1) % 16 < 16 := Nat.mod_lt _ (by norm_num)
    omega

theorem tmod_sixteen_congr (a : ℤ) : a.tmod 16 % 16 = a % 16 := by
  have h := Int.tmod_add_tdiv a 16
  omega

theorem norm_local_offset_emod (v : ℤ) : norm_local_offset v = v % 16 := by
  unfold norm_local_offset CHUNK_SIZE
  have hlow := tmod_sixteen_lower v
  have h0 : 0 ≤ v.tmod 16 + 16 := by omega
  rw [Int.tmod_eq_emod h0 (by norm_num)]
  have hc := tmod_sixteen_congr v
  omega

theorem block_to_chunk_coord_ediv (v : ℤ) : block_to_chunk_coord v = v / 16 := by
  unfold block_to_chunk_coord CHUNK_SIZE
  exact Int.fdiv_eq_ediv v (by norm_num)

theorem server_set_get (w : ServerChunkWorldMap) (p : IVec3) (b : BlockData) :
    (ServerChunkWorldMap.set_block w p b).get_block_by_coordinates p = Option.some b := by
  simp [ServerChunkWorldMap.set_block, ServerChunkWorldMap.get_block_by_coordinates]

theorem server_remove_get (w : ServerChunkWorldMap) (p : IVec3) :
    ((ServerChunkWorldMap.remove_block_by_coordinates w p).2).get_block_by_coordinates p =
      Option.none := by
  rcases hc : w.map ⟨block_to_chunk_coord p.x, block_to_chunk_coord p.y,
      block_to_chunk_coord p.z⟩ with _ | chunk
  · rcases hg : w.get_block_by_coordinates p with _ | blk
    · simp [ServerChunkWorldMap.remove_block_by_coordinates, hg,
        ServerChunkWorldMap.get_block_by_coordinates, hc]
    · exfalso
      simp [ServerChunkWorldMap.get_block_by_coordinates, hc] at hg
  · rcases hg : w.get_block_by_coordinates p with _ | blk
    · have hk : chunk.map ⟨norm_local_offset p.x, norm_local_offset p.y,
          norm_local_offset p.z⟩ = Option.none := by
        simpa [ServerChunkWorldMap.get_block_by_coordinates, hc] using hg
      simp [ServerChunkWorldMap.remove_block_by_coordinates,
        ServerChunkWorldMap.get_block_by_coordinates, hc, hk]
    · have hk : chunk.map ⟨norm_local_offset p.x, norm_local_offset p.y,
          norm_local_offset p.z⟩ = Option.some blk := by
        simpa [ServerChunkWorldMap.get_block_by_coordinates, hc] using hg
      simp [ServerChunkWorldMap.remove_block_by_coordinates,
        ServerChunkWorldMap.get_block_by_coordinates, hc, hk,
        global_block_to_chunk_pos, global_block_to_local_offset]

theorem server_remove_missing_chunk (w : ServerChunkWorldMap) (p : IVec3)
    (h : w.map (global_block_to_chunk_pos p) = Option.none) :
    ServerChunkWorldMap.remove_block_by_coordinates w p = (Option.none, w) := by
  have hg : w.get_block_by_coordinates p = Option.none := by
    simp [ServerChunkWorldMap.get_block_by_coordinates, global_block_to_chunk_pos] at h ⊢
    simp [h]
  simp [ServerChunkWorldMap.remove_block_by_coordinates, hg]

theorem client_set_get (w : ClientWorldMap) (p : IVec3) (b : BlockData) :
    (ClientWorldMap.set_block w p b).get_block_by_coordinates p = Option.some b := by
  simp [ClientWorldMap.set_block, ClientWorldMap.get_block_by_coordinates]

theorem client_remove_get (w : ClientWorldMap) (p : IVec3) :
    ((ClientWorldMap.remove_block_by_coordinates w p).2).get_block_by_coordinates p =
      Option.none := by
  rcases hc : w.map (global_block_to_chunk_pos p) with _ | chunk
  · rcases hg : w.get_block_by_coordinates p with _ | blk
    · simp [ClientWorldMap.remove_block_by_coordinates, hg,
        ClientWorldMap.get_block_by_coordinates, hc]
    · exfalso
      simp [ClientWorldMap.get_block_by_coordinates, hc] at hg
  · rcases hg : w.get_block_by_coordinates p with _ | blk
    · have hk : chunk.map (global_block_to_local_offset p) = Option.none := by
        simpa [ClientWorldMap.get_block_by_coordinates, hc] using hg
      simp [ClientWorldMap.remove_block_by_coordinates,
        ClientWorldMap.get_block_by_coordinates, hc, hk]
    · have hk : chunk.map (global_block_to_local_offset p) = Option.some blk := by
        simpa [ClientWorldMap.get_block_by_coordinates, hc] using hg
      simp [ClientWorldMap.remove_block_by_coordinates,
        ClientWorldMap.get_block_by_coordinates, hc, hk]

theorem client_remove_missing_chunk (w : ClientWorldMap) (p : IVec3)
    (h : w.map (global_block_to_chunk_pos p) = Option.none) :
    ClientWorldMap.remove_block_by_coordinates w p = (Option.none, w) := by
  have hg : w.get_block_by_coordinates p = Option.none := by
    simp [ClientWorldMap.get_block_by_coordinates, h]
  simp [ClientWorldMap.remove_block_by_coordinates, hg]

/-- C5: for every block coordinate p (negative ones included) and block b,
set followed by get returns b (creating the chunk when absent), remove
followed by get returns none, and removing at a position whose chunk does
not exist returns None and leaves the store untouched - for both the server
and the client store. -/
theorem C5_set_get_remove_roundtrip :
    ∀ (w : ServerChunkWorldMap) (cw : ClientWorldMap) (p : IVec3) (b : BlockData),
      (ServerChunkWorldMap.set_block w p b).get_block_by_coordinates p = Option.some b ∧
      ((ServerChunkWorldMap.remove_block_by_coordinates w p).2).get_block_by_coordinates p =
        Option.none ∧
      (w.map (global_block_to_chunk_pos p) = Option.none →
        ServerChunkWorldMap.remove_block_by_coordinates w p = (Option.none, w)) ∧
      (ClientWorldMap.set_block cw p b).get_block_by_coordinates p = Option.some b ∧
      ((ClientWorldMap.remove_block_by_coordinates cw p).2).get_block_by_coordinates p =
        Option.none ∧
      (cw.map (global_block_to_chunk_pos p) = Option.none →
        ClientWorldMap.remove_block_by_coordinates cw p = (Option.none, cw)) := by
  intro w cw p b
  exact ⟨server_set_get w p b, server_remove_get w p,
    server_remove_missing_chunk w p, client_set_get cw p b,
    client_remove_get cw p, client_remove_missing_chunk cw p⟩

/-- C5 witness: the round trip evaluated at the negative coordinate
(-1, 5, 33) on the empty server and client stores. -/
theorem C5_witness :
    (ServerChunkWorldMap.set_block emptyServerMap ⟨-1, 5, 33⟩
        ⟨BlockId.fullCube⟩).get_block_by_coordinates ⟨-1, 5, 33⟩ =
      Option.some ⟨BlockId.fullCube⟩ ∧
    ServerChunkWorldMap.remove_block_by_coordinates emptyServerMap ⟨-1, 5, 33⟩ =
      (Option.none, emptyServerMap) ∧
    ClientWorldMap.remove_block_by_coordinates emptyClientMap ⟨-1, 5, 33⟩ =
      (Option.none, emptyClientMap) := by
  have h := C5_set_get_remove_roundtrip emptyServerMap emptyClientMap ⟨-1, 5, 33⟩
    ⟨BlockId.fullCube⟩
  exact ⟨h.1, h.2.2.1 rfl, h.2.2.2.2.2 rfl⟩

/-- C6: the normalized local offset lies in [0, CHUNK_SIZE) and recomposes
with the floor-division chunk coordinate to the original coordinate (with
chunk -1 / offset 15 at v = -1); global_block_to_local_offset (used by
remove) agrees componentwise with the normalization inlined in get, set and
get_mut, and get_mut addresses exactly the entry addressed by get. -/
theorem C6_local_offset_normalization :
    ∀ (v : ℤ) (w : ServerChunkWorldMap) (p : IVec3),
      (0 ≤ norm_local_offset v ∧ norm_local_offset v < CHUNK_SIZE ∧
        block_to_chunk_coord v * CHUNK_SIZE + norm_local_offset v = v) ∧
      global_block_to_local_offset p =
        ⟨norm_local_offset p.x, norm_local_offset p.y, norm_local_offset p.z⟩ ∧
      w.get_block_mut_by_coordinates p = w.get_block_by_coordinates p ∧
      block_to_chunk_coord (-1) = -1 ∧ norm_local_offset (-1) = 15 := by
  intro v w p
  refine ⟨⟨?_, ?_, ?_⟩, rfl, rfl, by decide, by decide⟩
  · rw [norm_local_offset_emod]
    exact Int.emod_nonneg v (by norm_num)
  · rw [norm_local_offset_emod]
    unfold CHUNK_SIZE
    exact Int.emod_lt_of_pos v (by norm_num)
  · rw [norm_local_offset_emod, block_to_chunk_coord_ediv]
    unfold CHUNK_SIZE
    have h := Int.ediv_add_emod v 16
    omega

theorem gsc_radius_one_length (position : Vec3F) :
    (get_surrounding_chunks position 1).length = 27 := rfl

/-- C2 (code bug): get_surrounding_chunks never consults the store - for
radius 1 it returns all 27 coordinates of the cubic neighborhood
unconditionally - so the chunk-count readiness gate compares 27 against 9
and never fires, and simulate_player_movement proceeds to mutate the player
even when the store holds no chunks at all. -/
theorem C2_readiness_gate_dead :
    (∀ position : Vec3F, (get_surrounding_chunks position 1).length = 27) ∧
    simulate_player_movement basePlayer emptyServerMap inputC2 ≠ basePlayer := by
  constructor
  · exact gsc_radius_one_length
  · decide

/-- C3 counterexample: the block box [1,2]x[0,1]x[0,1] only touches the
query box [0,1]^3 on the face x = 1 (zero overlap volume), yet
check_collision_box reports a collision. -/
theorem C3_touching_faces_counterexample :
    check_collision_box worldC3 queryBoxC3 = true ∧
      ¬ nondegenerateOverlap queryBoxC3 touchBox := by
  decide

/-- C3 amended theorem: for finite boxes the Aabb-hitbox branch of
check_collision_box reports a collision exactly when the closed boxes
intersect - componentwise max of minima at most componentwise min of
maxima - so touching faces, edges and corners do count as collisions. -/
theorem C3_amended_closed_overlap :
    ∀ qx qy qz qX qY qZ bx bb bz bX bY bZ : ℚ,
      aabbOverlapTest ⟨⟨some qx, some qy, some qz⟩, ⟨some qX, some qY, some qZ⟩⟩
          ⟨⟨some bx, some bb, some bz⟩, ⟨some bX, some bY, some bZ⟩⟩ = true ↔
        (max qx bx ≤ min qX bX ∧ max qy bb ≤ min qY bY ∧ max qz bz ≤ min qZ bZ) := by
  intro qx qy qz qX qY qZ bx bb bz bX bY bZ
  simp only [aabbOverlapTest, vMax, vMin, vecEq, fMax, fMin, fEq,
    Bool.and_eq_true, decide_eq_true_eq]
  constructor
  · rintro ⟨⟨h1, h2⟩, h3⟩
    exact ⟨min_eq_right_iff.mp h1.symm, min_eq_right_iff.mp h2.symm,
      min_eq_right_iff.mp h3.symm⟩
  · rintro ⟨h1, h2, h3⟩
    exact ⟨⟨(min_eq_right_iff.mpr h1).symm, (min_eq_right_iff.mpr h2).symm⟩,
      (min_eq_right_iff.mpr h3).symm⟩

/-- C8: simulate_player_movement is deterministic - it is a pure function
of (player, world, input) in this embedding, so two invocations on equal
triples yield equal (bit-identical) player states, with no hidden state. -/
theorem C8_simulate_deterministic {W : Type} [WorldMap W] :
    ∀ (p1 p2 : Player) (w1 w2 : W) (i1 i2 : PlayerFrameInput),
      p1 = p2 → w1 = w2 → i1 = i2 →
      simulate_player_movement p1 w1 i1 = simulate_player_movement p2 w2 i2 := by
  intro p1 p2 w1 w2 i1 i2 hp hw hi
  rw [hp, hw, hi]

/-- C8 witness: two runs at the same concrete triple coincide. -/
theorem C8_witness :
    simulate_player_movement basePlayer emptyServerMap inputIdle =
      simulate_player_movement basePlayer emptyServerMap inputIdle :=
  C8_simulate_deterministic basePlayer basePlayer emptyServerMap emptyServerMap
    inputIdle inputIdle rfl rfl rfl

/-- C9: whenever the movement phase leaves the player below the fall limit,
simulate_player_movement teleports to the fixed respawn point (0, 100, 0)
and zeroes vertical velocity, leaving every other field exactly as the
movement phase produced it (no other side effects). -/
theorem C9_fall_out_recovery {W : Type} [WorldMap W] :
    ∀ (p : Player) (w : W) (i : PlayerFrameInput),
      fLt (move_phase p w i).position.y FALL_LIMIT = true →
      simulate_player_movement p w i =
        { move_phase p w i with
            velocity := { (move_phase p w i).velocity with y := some 0 },
            position := ⟨some 0, some 100, some 0⟩ } := by
  intro p w i h
  unfold simulate_player_movement
  rw [gsc_radius_one_length p.position]
  norm_num
  unfold apply_fall_limit
  rw [h]
  simp

/-- C9 witness: a player at y = -100 after integration is respawned at
(0, 100, 0) with zero vertical velocity. -/
theorem C9_witness :
    simulate_player_movement playerC9 emptyServerMap inputIdle =
      { move_phase playerC9 emptyServerMap inputIdle with
          velocity := { (move_phase playerC9 emptyServerMap inputIdle).velocity with
            y := some 0 },
          position := ⟨some 0, some 100, some 0⟩ } :=
  C9_fall_out_recovery playerC9 emptyServerMap inputIdle (by decide)

/-- C10: the flying branch performs no collision query: fly takes no world
argument at all and moves the player by direction * (SPEED *
FLY_SPEED_MULTIPLIER * delta); consequently, for a player whose is_flying
flag is true after the toggle step, simulate_player_movement yields the
same result over any two stores, however their blocks differ. -/
theorem C10_flying_ignores_world {W : Type} [WorldMap W] :
    (∀ (p : Player) (d : Vec3F) (delta : F),
      (fly p d delta).position =
        vAdd p.position (vScale d (fMul (fMul SPEED FLY_SPEED_MULTIPLIER) delta))) ∧
    (∀ (p : Player) (i : PlayerFrameInput) (w1 w2 : W),
      (toggle_fly p i).is_flying = true →
      simulate_player_movement p w1 i = simulate_player_movement p w2 i) := by
  constructor
  · intro p d delta
    rfl
  · intro p i w1 w2 h
    simp only [simulate_player_movement, move_phase, record_camera]
    simp [h]

/-- C10 witness: a flying player simulated over the empty store and over a
store containing a block ends in the same state. -/
theorem C10_witness :
    simulate_player_movement playerC10 emptyServerMap inputIdle =
      simulate_player_movement playerC10 worldC3 inputIdle :=
  (C10_flying_ignores_world (W := ServerChunkWorldMap)).2 playerC10 inputIdle
    emptyServerMap worldC3 (by decide)

/-- C7: per-axis collision response of the walking branch.  If the vertical
candidate position (original position with y moved by the clamped vertical
velocity) collides, position.y is left unchanged and the resolution sets
on_ground and zeroes vertical velocity - the final state keeps them unless
a jump (applied only after resolution, only when grounded) overrides the
velocity; if it does not collide, position.y moves, on_ground is cleared
and gravity (applied only after resolution, only when airborne) integrates
into vertical velocity.  Horizontal axes are rejected or applied
independently in the same way. -/
theorem C7_vertical_collision_response {W : Type} [WorldMap W] :
    ∀ (p : Player) (j : Bool) (d : Vec3F) (delta : F) (w : W),
      (check_player_collision (withY p.position (fAdd p.position.y
          (fMul (fMin (fMax p.velocity.y (fNeg MAX_VERTICAL_SPEED)) MAX_VERTICAL_SPEED)
            delta))) p w = true →
        (fly_not p j d delta w).position.y = p.position.y) ∧
      (check_player_collision (withY p.position (fAdd p.position.y
          (fMul (fMin (fMax p.velocity.y (fNeg MAX_VERTICAL_SPEED)) MAX_VERTICAL_SPEED)
            delta))) p w = true → j = false →
        (fly_not p j d delta w).on_ground = true ∧
        (fly_not p j d delta w).velocity.y = some 0) ∧
      (check_player_collision (withY p.position (fAdd p.position.y
          (fMul (fMin (fMax p.velocity.y (fNeg MAX_VERTICAL_SPEED)) MAX_VERTICAL_SPEED)
            delta))) p w = true → j = true →
        (fly_not p j d delta w).velocity.y = JUMP_VELOCITY ∧
        (fly_not p j d delta w).on_ground = false) ∧
      (check_player_collision (withY p.position (fAdd p.position.y
          (fMul (fMin (fMax p.velocity.y (fNeg MAX_VERTICAL_SPEED)) MAX_VERTICAL_SPEED)
            delta))) p w = false →
        (fly_not p j d delta w).position.y = fAdd p.position.y
          (fMul (fMin (fMax p.velocity.y (fNeg MAX_VERTICAL_SPEED)) MAX_VERTICAL_SPEED)
            delta) ∧
        (fly_not p j d delta w).on_ground = false ∧
        (fly_not p j d delta w).velocity.y = fAdd
          (fMin (fMax p.velocity.y (fNeg MAX_VERTICAL_SPEED)) MAX_VERTICAL_SPEED)
          (fMul GRAVITY delta)) ∧
      (check_player_collision (withX p.position (fAdd p.position.x
          (fMul d.x (fMul SPEED delta)))) p w = true →
        (fly_not p j d delta w).position.x = p.position.x) ∧
      (check_player_collision (withX p.position (fAdd p.position.x
          (fMul d.x (fMul SPEED delta)))) p w = false →
        (fly_not p j d delta w).position.x =
          fAdd p.position.x (fMul d.x (fMul SPEED delta))) ∧
      (check_player_collision (withZ p.position (fAdd p.position.z
          (fMul d.z (fMul SPEED delta)))) p w = true →
        (fly_not p j d delta w).position.z = p.position.z) ∧
      (check_player_collision (withZ p.position (fAdd p.position.z
          (fMul d.z (fMul SPEED delta)))) p w = false →
        (fly_not p j d delta w).position.z =
          fAdd p.position.z (fMul d.z (fMul SPEED delta))) := by
  intro p j d delta w
  simp only [fly_not, check_player_collision]
  cases hx : check_collision_box w
      ⟨vSub (withX p.position (fAdd p.position.x (fMul d.x (fMul SPEED delta)))) HALF_BLOCK,
       vAdd (withX p.position (fAdd p.position.x (fMul d.x (fMul SPEED delta)))) HALF_BLOCK⟩ <;>
  cases hy : check_collision_box w
      ⟨vSub (withY p.position (fAdd p.position.y
          (fMul (fMin (fMax p.velocity.y (fNeg MAX_VERTICAL_SPEED)) MAX_VERTICAL_SPEED)
            delta))) HALF_BLOCK,
       vAdd (withY p.position (fAdd p.position.y
          (fMul (fMin (fMax p.velocity.y (fNeg MAX_VERTICAL_SPEED)) MAX_VERTICAL_SPEED)
            delta))) HALF_BLOCK⟩ <;>
  cases hz : check_collision_box w
      ⟨vSub (withZ p.position (fAdd p.position.z (fMul d.z (fMul SPEED delta)))) HALF_BLOCK,
       vAdd (withZ p.position (fAdd p.position.z (fMul d.z (fMul SPEED delta)))) HALF_BLOCK⟩ <;>
  cases j <;>
  simp_all [withX, withY, withZ]

/-- C7 witness: the falling player at (0, 0.4, 0) above the full-cube block
lands - the tick ends grounded with zero vertical velocity and unchanged
height. -/
theorem C7_witness :
    (fly_not playerC7 false Vec3F.zero (some 1) worldC7).position.y =
      playerC7.position.y ∧
    (fly_not playerC7 false Vec3F.zero (some 1) worldC7).on_ground = true ∧
    (fly_not playerC7 false Vec3F.zero (some 1) worldC7).velocity.y = some 0 := by
  have h := C7_vertical_collision_response (W := ServerChunkWorldMap) playerC7 false
    Vec3F.zero (some 1) worldC7
  exact ⟨h.1 (by decide), (h.2.1 (by decide) rfl).1, (h.2.1 (by decide) rfl).2⟩

theorem fAdd_some_zero (a : F) : fAdd a (some 0) = a := by
  cases a with
  | none => rfl
  | some x => simp [fAdd, qAdd_eq]

theorem fMul_some_zero (a : ℚ) : fMul (some a) (some 0) = some 0 := by
  simp [fMul, qMul_eq]

theorem clamp_isSome (v : F) :
    ∃ c : ℚ, fMin (fMax v (fNeg MAX_VERTICAL_SPEED)) MAX_VERTICAL_SPEED = some c := by
  cases v with
  | none => exact ⟨min (qNeg 50) 50, rfl⟩
  | some x => exact ⟨min (max x (qNeg 50)) 50, rfl⟩

theorem fly_position_delta_zero (p : Player) (d : Vec3F) (h : vFinite d = true) :
    (fly p d (some 0)).position = p.position := by
  obtain ⟨dx, hdx⟩ := Option.isSome_iff_exists.mp (by
    have := h; simp [vFinite, Bool.and_eq_true] at this; exact this.1.1)
  obtain ⟨dy, hdy⟩ := Option.isSome_iff_exists.mp (by
    have := h; simp [vFinite, Bool.and_eq_true] at this; exact this.1.2)
  obtain ⟨dz, hdz⟩ := Option.isSome_iff_exists.mp (by
    have := h; simp [vFinite, Bool.and_eq_true] at this; exact this.2)
  have hs : fMul (fMul SPEED FLY_SPEED_MULTIPLIER) (some 0) = some 0 := by
    simp [SPEED, FLY_SPEED_MULTIPLIER, fMul, qMul_eq]
  simp only [fly, vAdd, vScale, hs, hdx, hdy, hdz, fMul_some_zero, fAdd_some_zero]

theorem fly_not_position_delta_zero {W : Type} [WorldMap W] (p : Player) (j : Bool)
    (d : Vec3F) (w : W) (h : vFinite d = true) :
    (fly_not p j d (some 0) w).position = p.position := by
  obtain ⟨dx, hdx⟩ := Option.isSome_iff_exists.mp (by
    have := h; simp [vFinite, Bool.and_eq_true] at this; exact this.1.1)
  obtain ⟨dz, hdz⟩ := Option.isSome_iff_exists.mp (by
    have := h; simp [vFinite, Bool.and_eq_true] at this; exact this.2)
  obtain ⟨c, hc⟩ := clamp_isSome p.velocity.y
  have hsp : fMul SPEED (some 0) = some 0 := by simp [SPEED, fMul, qMul_eq]
  have hnx : fAdd p.position.x (fMul d.x (fMul SPEED (some 0))) = p.position.x := by
    rw [hsp, hdx, fMul_some_zero, fAdd_some_zero]
  have hnz : fAdd p.position.z (fMul d.z (fMul SPEED (some 0))) = p.position.z := by
    rw [hsp, hdz, fMul_some_zero, fAdd_some_zero]
  have hny : fAdd p.position.y
      (fMul (fMin (fMax p.velocity.y (fNeg MAX_VERTICAL_SPEED)) MAX_VERTICAL_SPEED)
        (some 0)) = p.position.y := by
    rw [hc, fMul_some_zero, fAdd_some_zero]
  simp only [fly_not, hnx, hnz, hny]
  have hwx : withX p.position p.position.x = p.position := rfl
  have hwy : withY p.position p.position.y = p.position := rfl
  have hwz : withZ p.position p.position.z = p.position := rfl
  rw [hwx, hwy, hwz]
  split_ifs <;> rfl

/-- C1 counterexample: simulate_player_movement has no delta_ms == 0 guard;
a zero-delta frame holding the fly toggle still flips is_flying, so the
player state is not byte-for-byte unchanged. -/
theorem C1_zero_delta_counterexample :
    inputC1.delta_ms = 0 ∧
    simulate_player_movement basePlayer emptyServerMap inputC1 ≠ basePlayer ∧
    (simulate_player_movement basePlayer emptyServerMap inputC1).is_flying = true ∧
    basePlayer.is_flying = false := by
  decide

/-- C1 amended theorem: with delta_ms == 0 the position is unchanged
(provided the computed direction is finite and the player is not already
below the fall limit), but flags, camera and velocity may still mutate; the
byte-for-byte zero-delta guard lives in the client caller, not in
simulate_player_movement. -/
theorem C1_amended_zero_delta_position {W : Type} [WorldMap W] :
    ∀ (p : Player) (w : W) (i : PlayerFrameInput),
      i.delta_ms = 0 →
      vFinite (get_desired_direction (record_camera (toggle_fly p i) i) i) = true →
      fLt p.position.y FALL_LIMIT = false →
      (simulate_player_movement p w i).position = p.position := by
  intro p w i hdelta hdir hfl
  unfold simulate_player_movement
  rw [gsc_radius_one_length]
  norm_num
  unfold move_phase
  have hd0 : fDiv (some ((i.delta_ms : ℚ))) (some 1000) = some 0 := by
    rw [hdelta]
    norm_num [fDiv]
    rw [qDiv_eq 0 1000 (by norm_num)]
    norm_num
  rw [hd0]
  have hpos : (record_camera (toggle_fly p i) i).position = p.position := by
    unfold record_camera toggle_fly
    split_ifs <;> rfl
  have hmoved : (if (record_camera (toggle_fly p i) i).is_flying = true then
      fly (record_camera (toggle_fly p i) i)
        (get_desired_direction (record_camera (toggle_fly p i) i) i) (some 0)
    else
      fly_not (record_camera (toggle_fly p i) i)
        (i.is_pressed NetworkAction.JumpOrFlyUp)
        (get_desired_direction (record_camera (toggle_fly p i) i) i) (some 0)
        w).position = p.position := by
    split_ifs with hfly
    · rw [fly_position_delta_zero _ _ hdir, hpos]
    · rw [fly_not_position_delta_zero _ _ _ _ hdir, hpos]
  unfold apply_fall_limit
  rw [hmoved]
  rw [hfl]
  norm_num
  exact hmoved

/-- C1 witness for the amended theorem: a zero-delta no-action frame leaves
the base player position unchanged. -/
theorem C1_witness :
    (simulate_player_movement basePlayer emptyServerMap inputC1w).position =
      basePlayer.position :=
  C1_amended_zero_delta_position basePlayer emptyServerMap inputC1w (by decide)
    (by decide) (by decide)

/-- C4 counterexample: with the camera pitched straight down and
MoveForward pressed, the unguarded normalize of the zeroed-y forward vector
produces NaN, and the resulting flying player position is NaN on every
component - simulate_player_movement does not guard the degenerate
direction. -/
theorem C4_nan_counterexample :
    (simulate_player_movement playerC4 emptyServerMap inputC4).position.x = none ∧
    (simulate_player_movement playerC4 emptyServerMap inputC4).position.y = none ∧
    (simulate_player_movement playerC4 emptyServerMap inputC4).position.z = none := by
  decide

/-- C4 amended theorem: get_desired_direction performs no degeneracy guard:
whenever the camera forward vector has zero horizontal projection (camera
pointing straight up or down) and MoveForward is pressed, every component
of the desired direction is NaN. -/
theorem C4_amended_degenerate_camera_nan :
    ∀ (p : Player) (i : PlayerFrameInput),
      p.camera_transform.forward.x = some 0 →
      p.camera_transform.forward.z = some 0 →
      i.is_pressed NetworkAction.MoveForward = true →
      get_desired_direction p i = ⟨none, none, none⟩ := by
  intro p i h1 h2 h3
  have hfwd : vNormalize (withY p.camera_transform.forward (some 0)) =
      ⟨none, none, none⟩ := by
    have hw : withY p.camera_transform.forward (some 0) = ⟨some 0, some 0, some 0⟩ := by
      unfold withY
      rw [h1, h2]
    rw [hw]
    decide
  simp only [get_desired_direction]
  rw [hfwd, h3]
  cases hb : i.is_pressed NetworkAction.MoveBackward <;>
  cases hl : i.is_pressed NetworkAction.MoveLeft <;>
  cases hr : i.is_pressed NetworkAction.MoveRight <;>
  cases hj : i.is_pressed NetworkAction.JumpOrFlyUp <;>
  cases hs : i.is_pressed NetworkAction.SneakOrFlyDown <;>
  simp only [Bool.false_eq_true, if_false, if_true] <;>
  rfl

/-- C4 witness for the amended theorem: the flying player looking straight
down pressing MoveForward gets an all-NaN desired direction. -/
theorem C4_witness :
    get_desired_direction playerC4 inputC4 = ⟨none, none, none⟩ :=
  C4_amended_degenerate_camera_nan playerC4 inputC4 rfl rfl rfl

/-- C3 witness for the amended theorem: the touching boxes of the
counterexample satisfy the closed-intersection characterization. -/
theorem C3_amended_witness :
    aabbOverlapTest ⟨⟨some 0, some 0, some 0⟩, ⟨some 1, some 1, some 1⟩⟩
      ⟨⟨some 1, some 0, some 0⟩, ⟨some 2, some 1, some 1⟩⟩ = true :=
  (C3_amended_closed_overlap 0 0 0 1 1 1 1 0 0 2 1 1).mpr (by norm_num)
